import Mathlib

/-!
Verification of the `adbconnection` connection coordinator
(src/adbconnection/adbconnection.cc) against its natural-language
specification.

The development shallowly embeds the connection state machine of
`AdbConnectionState`: the boolean protocol flags, the debug-socket
descriptor, the poll-loop dispatch (`RunPollLoop`), the agent-control
token handling, `CloseFds`, `SendAgentFds`, `NotifyDdms`, the local
protocol handler (`PerformHandshake` and the packet phase of
`HandleDataWithoutAgent`), the DDM packet encoder (`SendDdmPacket`) and
the rendezvous retry loop (`SetupAdbConnection`).

Modelling conventions:
 * bytes are `Nat` values (callers that build real buffers use values
   below 256); multi-byte wire fields are big-endian, as in the source;
 * socket reads are modelled deterministically from the socket's
   readable buffer: a peek of `n` bytes returns `min n buf.length`
   bytes, `FIONREAD` returns `buf.length`, and writes succeed.  Syscall
   failure paths that the source maps to `CloseFds` coincide in the
   model with the empty-buffer case;
 * external nondeterminism (whether `sendmsg` of the agent fds
   succeeds, whether attaching the agent succeeds, what
   `DdmHandleChunk` answers) is carried inside the events;
 * ghost fields (`notifications`, `handoffs`, `connHandshaked`,
   `agentFdsCurrent`) record observable history and never influence
   the control flow.
-/

namespace AdbConnection

/-- The fixed 14-byte JDWP handshake string `"JDWP-Handshake"`
(`kJdwpHandshake` in the source), as byte values. -/
def kJdwpHandshake : List Nat :=
  [74, 68, 87, 80, 45, 72, 97, 110, 100, 115, 104, 97, 107, 101]

/-- `kPacketHeaderLen` / `kJdwpHeaderLen`: the fixed JDWP header length. -/
def kPacketHeaderLen : Nat := 11

/-- `kDdmCommandSet` (= `kJdwpDdmCmdSet`): the DDM command-set byte. -/
def kDdmCommandSet : Nat := 199

/-- `kDdmChunkCommand` (= `kJdwpDdmCmd`): the DDM chunk command byte. -/
def kDdmChunkCommand : Nat := 1

/-- Big-endian 32-bit decode of four bytes (`ntohl` on a 4-byte load). -/
def ntohl4 (b0 b1 b2 b3 : Nat) : Nat :=
  ((b0 * 256 + b1) * 256 + b2) * 256 + b3

/-- Big-endian 32-bit encode (`htonl` written into four bytes); the source
stores a `uint32_t`, so the value is reduced mod 2^32. -/
def htonl (n : Nat) : List Nat :=
  [n % 2 ^ 32 / 2 ^ 24, n % 2 ^ 24 / 2 ^ 16, n % 2 ^ 16 / 2 ^ 8, n % 2 ^ 8]

/-- `DdmPacketType` selects the command or the reply variant of the
packet header written by `SendDdmPacket`. -/
inductive DdmPacketType
  | kCmd
  | kReply
  deriving Repr, DecidableEq

/-- Modelled from the spec: the numeric values of `DdmPacketType` are
declared in `adbconnection.h`, which is not among the provided source
files.  The spec (§4.3) says the flags byte selects the command vs. the
reply variant; the reply variant is the JDWP reply flag `0x80`, the
command variant `0`. -/
def ddmFlagsByte : DdmPacketType → Nat
  | .kCmd => 0
  | .kReply => 0x80

/-- The byte sequence `SendDdmPacket` assembles and writes (header of
`kJdwpHeaderLen + 4 + 4` bytes followed by the payload): total length,
id, the flags byte, then for a command packet the DDM command-set and
command bytes, for a reply the two zero error-code bytes, then the
chunk type, the chunk length and the data, all multi-byte fields
big-endian. -/
def sendDdmPacketBytes (id : Nat) (pt : DdmPacketType) (ty : Nat)
    (data : List Nat) : List Nat :=
  htonl (kPacketHeaderLen + 4 + 4 + data.length) ++ htonl id ++
    [ddmFlagsByte pt] ++
    (match pt with
     | .kCmd => [kDdmCommandSet, kDdmChunkCommand]
     | .kReply => [0, 0]) ++
    htonl ty ++ htonl data.length ++ data

/-- Primitive actions of `CloseFds`, recorded so the lock discipline
around the socket reset is visible: `ScopedEventFdLock` acquires the
write-guard eventfd, the socket is reset inside its scope, and the
guard is released when the scope ends. -/
inductive CloseAction
  | lockAcquire
  | socketReset
  | lockRelease
  | notifyInactive
  deriving Repr, DecidableEq

/-- Which call site of `SendAgentFds` performed a handoff: the
`listen-start` token handler, the adoption of a freshly accepted
connection, or the data-triggered retry in the poll loop. -/
inductive HandoffSite
  | listenStart
  | adoption
  | dataRetry
  deriving Repr, DecidableEq

/-- One successful fd handoff to the agent: the token chosen
(`requireHandshake = true` stands for `"perform-handshake"`, `false`
for `"skip-handshake"`), the call site, the value of
`performed_handshake_` at the call, and the ghost fact whether a
handshake had actually been completed on the current physical
connection. -/
structure Handoff where
  requireHandshake : Bool
  site : HandoffSite
  phAtCall : Bool
  connHandshakedAtCall : Bool
  deriving Repr, DecidableEq

/-- The connection state machine's state (`AdbConnectionState`): the
daemon session handle (`control_ctx_`, present or not), the accepted
debug-socket descriptor (`adb_connection_socket_`, `-1` when none) and
the protocol flags.  `notifications` logs the `NotifyDdms` calls
(`true` = active), `handoffs` logs the successful `SendAgentFds` calls;
`connHandshaked` and `agentFdsCurrent` are ghost state: whether a
handshake was completed on the current physical connection and whether
the fds last sent to the agent duplicate the current connection. -/
structure ConnState where
  controlCtx : Bool
  debugSocket : Int
  shuttingDown : Bool
  agentLoaded : Bool
  agentListening : Bool
  agentHasSocket : Bool
  sentAgentFds : Bool
  performedHandshake : Bool
  notifiedDdmActive : Bool
  notifications : List Bool
  handoffs : List Handoff
  connHandshaked : Bool
  agentFdsCurrent : Bool
  deriving Repr, DecidableEq

/-- The initial state built by `AdbConnectionState`'s constructor: no
session, no socket, every flag `false`. -/
def initState : ConnState :=
  { controlCtx := false
    debugSocket := -1
    shuttingDown := false
    agentLoaded := false
    agentListening := false
    agentHasSocket := false
    sentAgentFds := false
    performedHandshake := false
    notifiedDdmActive := false
    notifications := []
    handoffs := []
    connHandshaked := false
    agentFdsCurrent := false }

/-- `NotifyDdms(active)`: records the transition and flips
`notified_ddm_active_` (the source `DCHECK`s the value changes). -/
def notifyDdms (st : ConnState) (active : Bool) : ConnState :=
  { st with notifiedDdmActive := active
            notifications := st.notifications ++ [active] }

/-- `CloseFds`: under the write-guard eventfd lock the debug socket is
reset to `-1`; afterwards `performed_handshake_` is cleared, and if the
agent was never loaded while a DDM-active notification is outstanding,
`NotifyDdms(false)` fires.  Returns the new state together with the
primitive action trace. -/
def closeFdsFull (st : ConnState) : ConnState × List CloseAction :=
  let st1 : ConnState :=
    { st with debugSocket := -1
              performedHandshake := false
              connHandshaked := false
              agentFdsCurrent := false }
  if ¬st.agentLoaded ∧ st.notifiedDdmActive then
    (notifyDdms st1 false,
     [CloseAction.lockAcquire, CloseAction.socketReset,
      CloseAction.lockRelease, CloseAction.notifyInactive])
  else
    (st1,
     [CloseAction.lockAcquire, CloseAction.socketReset,
      CloseAction.lockRelease])

/-- The state effect of `CloseFds`. -/
def closeFds (st : ConnState) : ConnState := (closeFdsFull st).fst

/-- `AttachJdwpAgent`: on success (`attach` does not leave a pending
exception) `agent_loaded_` becomes true; on failure the state is
unchanged. -/
def attachAgent (st : ConnState) (ok : Bool) : ConnState :=
  if ok then { st with agentLoaded := true } else st

/-- `SendAgentFds(require_handshake)`: duplicates the debug-socket and
write-guard descriptors and transmits them with the
`"perform-handshake"` / `"skip-handshake"` token; on `sendmsg` success
`sent_agent_fds_` becomes true and the handoff is logged, on failure
the state is unchanged (the send is retried on a later event). -/
def sendAgentFds (st : ConnState) (requireHandshake : Bool)
    (site : HandoffSite) (ok : Bool) : ConnState :=
  if ok then
    { st with sentAgentFds := true
              agentFdsCurrent := true
              handoffs := st.handoffs ++
                [{ requireHandshake := requireHandshake
                   site := site
                   phAtCall := st.performedHandshake
                   connHandshakedAtCall := st.connHandshaked }] }
  else st

/-- The bytes `SendDdmPacket` writes to the debug socket: nothing when
the guard at its head fails (`adb_connection_socket_ == -1` or the
handshake has not been performed), otherwise the assembled packet. -/
def sendDdmOut (st : ConnState) (id : Nat) (pt : DdmPacketType) (ty : Nat)
    (data : List Nat) : List Nat :=
  if st.debugSocket = -1 ∨ ¬st.performedHandshake then []
  else sendDdmPacketBytes id pt ty data

/-- What one call of `HandleDataWithoutAgent` (or of its handshake
half) did: the resulting state, how many bytes it consumed from the
socket, the bytes it wrote back, whether it invoked `AttachJdwpAgent`,
whether it invoked the `DdmHandleChunk` diagnostic callback, and
whether it called `CloseFds`. -/
structure HandleResult where
  st : ConnState
  consumed : Nat
  written : List Nat
  attachedAgent : Bool
  callbackInvoked : Bool
  closedConn : Bool
  deriving Repr

/-- `PerformHandshake`: `FIONREAD` must report at least the handshake
length, else the connection is closed; then the handshake-sized read is
compared against `kJdwpHandshake` (consuming the bytes), a mismatch
closes the connection; on a match the same handshake bytes are sent
back and `performed_handshake_` becomes true. -/
def performHandshakeStep (st : ConnState) (buf : List Nat) : HandleResult :=
  if buf.length < kJdwpHandshake.length then
    { st := closeFds st, consumed := 0, written := [],
      attachedAgent := false, callbackInvoked := false, closedConn := true }
  else if buf.take kJdwpHandshake.length ≠ kJdwpHandshake then
    { st := closeFds st, consumed := kJdwpHandshake.length, written := [],
      attachedAgent := false, callbackInvoked := false, closedConn := true }
  else
    { st := { st with performedHandshake := true, connHandshaked := true },
      consumed := kJdwpHandshake.length, written := kJdwpHandshake,
      attachedAgent := false, callbackInvoked := false, closedConn := false }

/-- The declared total length of the peeked JDWP header: bytes 0..3,
big-endian (`full_len` in the source). -/
def hdrFullLen (buf : List Nat) : Nat :=
  ntohl4 (buf.getD 0 0) (buf.getD 1 0) (buf.getD 2 0) (buf.getD 3 0)

/-- The id field of the peeked JDWP header: bytes 4..7, big-endian
(`pkt_id` in the source). -/
def hdrPktId (buf : List Nat) : Nat :=
  ntohl4 (buf.getD 4 0) (buf.getD 5 0) (buf.getD 6 0) (buf.getD 7 0)

/-- The packet phase of `HandleDataWithoutAgent` (entered once the
handshake has been performed).  `buf` is the readable byte stream of
the socket; `handler` is `art::Dbg::DdmHandleChunk` (`none` when it
returns false, else the reply type and payload); `attachOk` is whether
`AttachJdwpAgent` would succeed.  The 11-byte header is peeked without
consuming; EOF closes, a short peek or an ununderstood or incomplete
packet escalates to the agent, and a fully available DDM chunk packet
is consumed, validated against the inner type/length sub-header
(silently dropped when malformed) and answered through
`SendDdmPacket`. -/
def packetPhase (st : ConnState) (buf : List Nat)
    (handler : Nat → List Nat → Option (Nat × List Nat))
    (attachOk : Bool) : HandleResult :=
  let res := min kPacketHeaderLen buf.length
  if res = 0 then
    -- `recv` returned 0 (EOF) or failed: close the socket.
    { st := closeFds st, consumed := 0, written := [],
      attachedAgent := false, callbackInvoked := false, closedConn := true }
  else if res < kPacketHeaderLen then
    { st := attachAgent st attachOk, consumed := 0, written := [],
      attachedAgent := true, callbackInvoked := false, closedConn := false }
  else
    let full_len := hdrFullLen buf
    let pkt_id := hdrPktId buf
    let pkt_cmd_set := buf.getD 9 0
    let pkt_cmd := buf.getD 10 0
    if pkt_cmd_set ≠ kDdmCommandSet ∨ pkt_cmd ≠ kDdmChunkCommand ∨
        full_len < kPacketHeaderLen then
      { st := attachAgent st attachOk, consumed := 0, written := [],
        attachedAgent := true, callbackInvoked := false, closedConn := false }
    else if buf.length < full_len then
      -- `FIONREAD` reports fewer readable bytes than the declared length.
      { st := attachAgent st attachOk, consumed := 0, written := [],
        attachedAgent := true, callbackInvoked := false, closedConn := false }
    else
      -- the full packet is read (consuming `full_len` bytes)
      let data_size := full_len - kPacketHeaderLen
      if data_size < 8 then
        { st := st, consumed := full_len, written := [],
          attachedAgent := false, callbackInvoked := false, closedConn := false }
      else
        let ddm_type := ntohl4 (buf.getD 11 0) (buf.getD 12 0)
          (buf.getD 13 0) (buf.getD 14 0)
        let ddm_len := ntohl4 (buf.getD 15 0) (buf.getD 16 0)
          (buf.getD 17 0) (buf.getD 18 0)
        if ddm_len > data_size - 8 then
          { st := st, consumed := full_len, written := [],
            attachedAgent := false, callbackInvoked := false,
            closedConn := false }
        else
          let st1 := if ¬st.notifiedDdmActive then notifyDdms st true else st
          match handler ddm_type ((buf.drop 19).take ddm_len) with
          | none =>
            { st := st1, consumed := full_len, written := [],
              attachedAgent := false, callbackInvoked := true,
              closedConn := false }
          | some (replyTy, reply) =>
            { st := st1, consumed := full_len,
              written := sendDdmOut st1 pkt_id DdmPacketType.kReply replyTy reply,
              attachedAgent := false, callbackInvoked := true,
              closedConn := false }

/-- `HandleDataWithoutAgent`: the handshake phase while
`performed_handshake_` is false, the packet phase afterwards. -/
def handleDataWithoutAgent (st : ConnState) (buf : List Nat)
    (handler : Nat → List Nat → Option (Nat × List Nat))
    (attachOk : Bool) : HandleResult :=
  if ¬st.performedHandshake then performHandshakeStep st buf
  else packetPhase st buf handler attachOk

/-- The agent-control tokens (`dt_fd_forward` fixed strings). -/
inductive Token
  | listenStart
  | listenEnd
  | handshakeComplete
  | close
  | accept
  | unknown
  deriving Repr, DecidableEq

/-- One poll-loop event.  `connect` is an attempt of
`SetupAdbConnection`; `agentMsg` a token on the agent control socket
(`sendOk`: whether a handoff it triggers succeeds); `daemonAccept` the
daemon session becoming readable (`newFd` is what
`adbconnection_client_receive_jdwp_fd` returns, `-1` on failure);
`daemonHangup` `POLLRDHUP` on the daemon session; `debugData` the debug
socket becoming readable with the given buffered bytes, callback
behavior, attach outcome and handoff-send outcome; `debugHangup`
`POLLRDHUP` on the debug socket; `stop` is `StopDebuggerThreads`. -/
inductive Event
  | connect (ok : Bool)
  | agentMsg (tok : Token) (sendOk : Bool)
  | daemonAccept (newFd : Int) (sendOk : Bool)
  | daemonHangup
  | debugData (buf : List Nat)
      (handler : Nat → List Nat → Option (Nat × List Nat))
      (attachOk : Bool) (sendOk : Bool)
  | debugHangup
  | stop

/-- One iteration of `RunPollLoop`, dispatching on the event.  The poll
guards of the source are enforced: the agent control socket is watched
only when the agent is loaded, the daemon session only when no debug
socket is held, and the debug socket only when this process still owns
the byte stream (`!agent_has_socket_ && !sent_agent_fds_`); a loop
iteration requires a live session and `!shutting_down_`. -/
def step (st : ConnState) (e : Event) : ConnState :=
  if st.shuttingDown then st else
  match e with
  | .connect ok =>
    if st.controlCtx then st else { st with controlCtx := ok }
  | .agentMsg tok sendOk =>
    if ¬st.controlCtx ∨ ¬st.agentLoaded then st else
    match tok with
    | .listenStart =>
      let st := { st with agentListening := true }
      if st.debugSocket ≠ -1 then
        sendAgentFds st (!st.performedHandshake) HandoffSite.listenStart sendOk
      else st
    | .listenEnd => { st with agentListening := false }
    | .handshakeComplete =>
      if st.agentHasSocket then
        { st with performedHandshake := true
                  connHandshaked := st.connHandshaked || st.agentFdsCurrent }
      else st
    | .close =>
      let st := closeFds st
      { st with agentHasSocket := false }
    | .accept =>
      { st with agentHasSocket := true
                sentAgentFds := false
                performedHandshake := false }
    | .unknown => st
  | .daemonAccept newFd sendOk =>
    -- watched only while `adb_connection_socket_ == -1`; with a socket
    -- already held the source would accept-then-drop, leaving the state
    -- unchanged.
    if ¬st.controlCtx ∨ st.debugSocket ≠ -1 then st else
    if newFd = -1 then { st with controlCtx := false } else
    let st := { st with debugSocket := newFd
                        connHandshaked := false
                        agentFdsCurrent := false }
    if st.agentLoaded ∧ st.agentListening then
      sendAgentFds st true HandoffSite.adoption sendOk
    else st
  | .daemonHangup =>
    if ¬st.controlCtx ∨ st.debugSocket ≠ -1 then st else
    { st with controlCtx := false }
  | .debugData buf handler attachOk sendOk =>
    if ¬st.controlCtx ∨ st.debugSocket = -1 ∨ st.agentHasSocket ∨
        st.sentAgentFds then st else
    if ¬st.agentLoaded then
      (handleDataWithoutAgent st buf handler attachOk).st
    else if st.agentListening ∧ ¬st.sentAgentFds then
      sendAgentFds st true HandoffSite.dataRetry sendOk
    else st
  | .debugHangup =>
    if ¬st.controlCtx ∨ st.debugSocket = -1 ∨ st.agentHasSocket ∨
        st.sentAgentFds then st else
    closeFds st
  | .stop => { st with shuttingDown := true }

/-- The state after running the poll loop over a sequence of events. -/
def run (events : List Event) : ConnState :=
  events.foldl step initState

/-! ### The daemon-rendezvous retry loop (`SetupAdbConnection`) -/

/-- The backoff update of `SetupAdbConnection`:
`sleep_ms += (sleep_ms >> 1); if (sleep_ms > sleep_max_ms) sleep_ms = sleep_max_ms;`
with `sleep_max_ms = 2 * 1000`. -/
def nextSleep (s : Nat) : Nat :=
  min (s + s / 2) 2000

/-- The duration of the n-th sleep the retry loop performs
(`sleep_ms` starts at 500 and is updated by `nextSleep` after each
failed attempt). -/
def sleepAt : Nat → Nat
  | 0 => 500
  | n + 1 => nextSleep (sleepAt n)

/-- Outcome of the retry loop: `some true` when
`adbconnection_client_new` succeeded, `some false` when the loop
observed `shutting_down_` and returned false, `none` when the supplied
fuel ran out; `sleeps` lists the performed sleep durations in order. -/
structure SetupOutcome where
  result : Option Bool
  sleeps : List Nat
  deriving Repr, DecidableEq

/-- The `while (!shutting_down_)` loop of `SetupAdbConnection`:
at iteration `i` the loop first reads `shutting_down_` (`sh i`), then
attempts the rendezvous (`co i`); on failure it sleeps `s` milliseconds
and grows `s` by `nextSleep`.  `fuel` bounds the modelled iterations. -/
def setupLoop (sh co : Nat → Bool) : Nat → Nat → Nat → List Nat → SetupOutcome
  | 0, _, _, acc => { result := none, sleeps := acc }
  | fuel + 1, i, s, acc =>
    if sh i then { result := some false, sleeps := acc }
    else if co i then { result := some true, sleeps := acc }
    else setupLoop sh co fuel (i + 1) (nextSleep s) (acc ++ [s])

/-- `SetupAdbConnection` itself: the loop entered with
`sleep_ms = 500`. -/
def runSetup (sh co : Nat → Bool) (fuel : Nat) : SetupOutcome :=
  setupLoop sh co fuel 0 500 []

/-! ### The agent-control receive buffer (`RunPollLoop`) -/

/-- `char buf[257]`: the size of the agent-control receive buffer. -/
def kAgentBufSize : Nat := 257

/-- `recv(local_agent_control_sock_, buf, sizeof(buf) - 1, 0)` asks for
at most `sizeof(buf) - 1 = 256` bytes, so a successful read returns
`0 ≤ res ≤ 256`. -/
def kAgentRecvMax : Nat := kAgentBufSize - 1

/-- The index at which the source stores the NUL terminator after a
successful agent-control read of `res` bytes: `buf[res + 1] = '\0'`. -/
def nulStoreIndex (res : Nat) : Nat := res + 1

/-! ### Auxiliary predicates and concrete traces -/

/-- Decides that a list of notifications alternates, the next expected
one being `e` (with `e = true`: active, inactive, active, ...). -/
def altFrom : Bool → List Bool → Bool
  | _, [] => true
  | e, b :: r => (b == e) && altFrom (!e) r

/-- Decides that every `socketReset` in an action trace happens while
the write-guard lock is held (lock depth positive). -/
def resetUnderLock (l : List CloseAction) : Bool := go 0 l where
  go : Nat → List CloseAction → Bool
  | _, [] => true
  | d, CloseAction.lockAcquire :: r => go (d + 1) r
  | d, CloseAction.lockRelease :: r => go (d - 1) r
  | d, CloseAction.socketReset :: r => decide (0 < d) && go d r
  | _d, CloseAction.notifyInactive :: r => go _d r

/-- The token sent with a handoff, checked against the flag: a
`listen-start` handoff carries `"perform-handshake"` exactly when
`performed_handshake_` was false at the call, and the adoption and
data-retry handoffs always carry `"perform-handshake"`. -/
def handoffOk (h : Handoff) : Bool :=
  match h.site with
  | HandoffSite.listenStart => h.requireHandshake == !h.phAtCall
  | HandoffSite.adoption => h.requireHandshake
  | HandoffSite.dataRetry => h.requireHandshake

/-- A diagnostic callback that never answers (DdmHandleChunk returns
false), used by the concrete traces. -/
def noReply : Nat → List Nat → Option (Nat × List Nat) := fun _ _ => none

/-- An 11-byte packet whose command set is not the DDM one: header
`length = 11`, `id = 1`, flags/command-set/command all zero.  Peeking
it makes `HandleDataWithoutAgent` load the agent. -/
def nonDdmPacket : List Nat := htonl 11 ++ htonl 1 ++ [0, 0, 0]

/-- A trace reaching `sent_agent_fds_ = true` with
`agent_has_socket_ = false`: connect, adopt a client, perform the
handshake, load the agent on an ununderstood packet, then receive
`listen-start`, which hands the fds off. -/
def trSentNoAccept : List Event :=
  [Event.connect true,
   Event.daemonAccept 3 true,
   Event.debugData kJdwpHandshake noReply false true,
   Event.debugData nonDdmPacket noReply true true,
   Event.agentMsg Token.listenStart true]

/-- The previous trace followed by a `close` token: `CloseFds` resets
the debug socket but leaves `sent_agent_fds_` set. -/
def trSentNoSocket : List Event :=
  trSentNoAccept ++ [Event.agentMsg Token.close true]

/-- A trace whose final `listen-start` handoff carries
`"skip-handshake"` although no handshake was ever completed on the
then-current physical connection: after the agent held and closed a
first connection, stale `accept` and `handshake-complete` tokens set
`performed_handshake_` again, and a freshly adopted connection is then
handed off with the stale flag. -/
def trStaleHandshakeFlag : List Event :=
  [Event.connect true,
   Event.daemonAccept 3 true,
   Event.debugData kJdwpHandshake noReply false true,
   Event.debugData nonDdmPacket noReply true true,
   Event.agentMsg Token.listenStart true,
   Event.agentMsg Token.accept true,
   Event.agentMsg Token.close true,
   Event.agentMsg Token.accept true,
   Event.agentMsg Token.handshakeComplete true,
   Event.agentMsg Token.listenEnd true,
   Event.daemonAccept 5 true,
   Event.agentMsg Token.listenStart true]

/-- A well-formed DDM chunk packet as the peer sends it: 11-byte JDWP
header (big-endian total length `19 + payload.length`, big-endian id,
the given flags byte, the DDM command set and chunk command), then the
big-endian chunk type, big-endian chunk length and the payload. -/
def mkDdmCmdPacket (id flags ty : Nat) (payload : List Nat) : List Nat :=
  htonl (kPacketHeaderLen + 4 + 4 + payload.length) ++ htonl id ++
    [flags, kDdmCommandSet, kDdmChunkCommand] ++ htonl ty ++
    htonl payload.length ++ payload

/-- The invariant backing the notification-alternation claim: the
logged notifications alternate starting with active, and
`notified_ddm_active_` records whether the last one was active (the
log has odd length). -/
def NotifyInv (st : ConnState) : Prop :=
  altFrom true st.notifications = true ∧
    st.notifiedDdmActive = (st.notifications.length % 2 == 1)

/-! ## Helper lemmas -/

theorem closeFds_debugSocket (st : ConnState) : (closeFds st).debugSocket = -1 := by
  unfold closeFds closeFdsFull
  split <;> simp [notifyDdms]

theorem closeFds_performedHandshake (st : ConnState) :
    (closeFds st).performedHandshake = false := by
  unfold closeFds closeFdsFull
  split <;> simp [notifyDdms]

theorem closeFds_sentAgentFds (st : ConnState) :
    (closeFds st).sentAgentFds = st.sentAgentFds := by
  unfold closeFds closeFdsFull
  split <;> simp [notifyDdms]

theorem closeFds_handoffs (st : ConnState) :
    (closeFds st).handoffs = st.handoffs := by
  unfold closeFds closeFdsFull
  split <;> simp [notifyDdms]

theorem performHandshakeStep_st_cases (st : ConnState) (buf : List Nat) :
    (performHandshakeStep st buf).st = closeFds st ∨
      (performHandshakeStep st buf).st =
        { st with performedHandshake := true, connHandshaked := true } := by
  unfold performHandshakeStep
  split
  · exact Or.inl rfl
  · split
    · exact Or.inl rfl
    · exact Or.inr rfl

theorem packetPhase_st_cases (st : ConnState) (buf : List Nat)
    (handler : Nat → List Nat → Option (Nat × List Nat)) (attachOk : Bool) :
    (packetPhase st buf handler attachOk).st = closeFds st ∨
      (packetPhase st buf handler attachOk).st = attachAgent st attachOk ∨
      (packetPhase st buf handler attachOk).st = st ∨
      ((packetPhase st buf handler attachOk).st = notifyDdms st true ∧
        st.notifiedDdmActive = false) := by
  simp only [packetPhase]
  split
  · exact Or.inl rfl
  · split
    · exact Or.inr (Or.inl rfl)
    · split
      · exact Or.inr (Or.inl rfl)
      · split
        · exact Or.inr (Or.inl rfl)
        · split
          · exact Or.inr (Or.inr (Or.inl rfl))
          · split
            · exact Or.inr (Or.inr (Or.inl rfl))
            · split
              · split
                · rename_i hnot
                  exact Or.inr (Or.inr (Or.inr ⟨rfl, by simpa using hnot⟩))
                · exact Or.inr (Or.inr (Or.inl rfl))
              · split
                · rename_i hnot
                  exact Or.inr (Or.inr (Or.inr ⟨rfl, by simpa using hnot⟩))
                · exact Or.inr (Or.inr (Or.inl rfl))

theorem handleData_st_cases (st : ConnState) (buf : List Nat)
    (handler : Nat → List Nat → Option (Nat × List Nat)) (attachOk : Bool) :
    (handleDataWithoutAgent st buf handler attachOk).st = closeFds st ∨
      (handleDataWithoutAgent st buf handler attachOk).st = attachAgent st attachOk ∨
      (handleDataWithoutAgent st buf handler attachOk).st = st ∨
      ((handleDataWithoutAgent st buf handler attachOk).st = notifyDdms st true ∧
        st.notifiedDdmActive = false) ∨
      (handleDataWithoutAgent st buf handler attachOk).st =
        { st with performedHandshake := true, connHandshaked := true } := by
  unfold handleDataWithoutAgent
  split
  · rcases performHandshakeStep_st_cases st buf with h | h
    · exact Or.inl h
    · exact Or.inr (Or.inr (Or.inr (Or.inr h)))
  · rcases packetPhase_st_cases st buf handler attachOk with h | h | h | h
    · exact Or.inl h
    · exact Or.inr (Or.inl h)
    · exact Or.inr (Or.inr (Or.inl h))
    · exact Or.inr (Or.inr (Or.inr (Or.inl h)))

theorem handleData_sentAgentFds (st : ConnState) (buf : List Nat)
    (handler : Nat → List Nat → Option (Nat × List Nat)) (attachOk : Bool) :
    (handleDataWithoutAgent st buf handler attachOk).st.sentAgentFds =
      st.sentAgentFds := by
  rcases handleData_st_cases st buf handler attachOk with h | h | h | ⟨h, _⟩ | h <;>
    rw [h] <;>
    first
      | exact closeFds_sentAgentFds st
      | rfl
      | (unfold attachAgent; split <;> rfl)

theorem handleData_handoffs (st : ConnState) (buf : List Nat)
    (handler : Nat → List Nat → Option (Nat × List Nat)) (attachOk : Bool) :
    (handleDataWithoutAgent st buf handler attachOk).st.handoffs =
      st.handoffs := by
  rcases handleData_st_cases st buf handler attachOk with h | h | h | ⟨h, _⟩ | h <;>
    rw [h] <;>
    first
      | exact closeFds_handoffs st
      | rfl
      | (unfold attachAgent; split <;> rfl)

theorem sleepAt_ge_four (n : Nat) (h : 4 ≤ n) : sleepAt n = 2000 := by
  induction n with
  | zero => omega
  | succ m ih =>
    rcases Nat.lt_or_ge m 4 with hm | hm
    · interval_cases m <;> simp_all [sleepAt, nextSleep]
    · rw [sleepAt, ih hm]
      rfl

theorem setupLoop_sleeps_follow (sh co : Nat → Bool) :
    ∀ (fuel i : Nat),
      (setupLoop sh co fuel i (sleepAt i) ((List.range i).map sleepAt)).sleeps =
        (List.range
          (setupLoop sh co fuel i (sleepAt i)
            ((List.range i).map sleepAt)).sleeps.length).map sleepAt := by
  intro fuel
  induction fuel with
  | zero => intro i; simp [setupLoop]
  | succ f ih =>
    intro i
    rw [setupLoop]
    split
    · simp
    · split
      · simp
      · have hs : nextSleep (sleepAt i) = sleepAt (i + 1) := rfl
        have ha : (List.range i).map sleepAt ++ [sleepAt i] =
            (List.range (i + 1)).map sleepAt := by
          rw [List.range_succ, List.map_append]
          rfl
        rw [hs, ha]
        exact ih (i + 1)

theorem setupLoop_stops (sh co : Nat → Bool) :
    ∀ (k fuel i : Nat), k < fuel → sh (i + k) = true →
      (∀ j, j < k → sh (i + j) = false ∧ co (i + j) = false) →
      setupLoop sh co fuel i (sleepAt i) ((List.range i).map sleepAt) =
        { result := some false, sleeps := (List.range (i + k)).map sleepAt } := by
  intro k
  induction k with
  | zero =>
    intro fuel i hf hsh _
    match fuel, hf with
    | f + 1, _ =>
      have hsh' : sh i = true := hsh
      rw [setupLoop, if_pos hsh']
      simp
  | succ m ih =>
    intro fuel i hf hsh hpre
    match fuel, hf with
    | f + 1, hf =>
      have h0 := hpre 0 (Nat.succ_pos m)
      have hsh0 : sh i = false := h0.1
      have hco0 : co i = false := h0.2
      rw [setupLoop, if_neg (by simp [hsh0]), if_neg (by simp [hco0])]
      have hs : nextSleep (sleepAt i) = sleepAt (i + 1) := rfl
      have ha : (List.range i).map sleepAt ++ [sleepAt i] =
          (List.range (i + 1)).map sleepAt := by
        rw [List.range_succ, List.map_append]
        rfl
      rw [hs, ha]
      have hrec := ih f (i + 1) (by omega)
        (by have he : i + 1 + m = i + (m + 1) := by omega
            rw [he]; exact hsh)
        (by intro j hj
            have he : i + 1 + j = i + (j + 1) := by omega
            rw [he]; exact hpre (j + 1) (by omega))
      rw [hrec]
      have he : i + 1 + m = i + (m + 1) := by omega
      rw [he]


theorem altFrom_append (l : List Bool) (e b : Bool) (h : altFrom e l = true) :
    altFrom e (l ++ [b]) =
      (b == (if l.length % 2 = 0 then e else !e)) := by
  induction l generalizing e with
  | nil => simp [altFrom]
  | cons x r ih =>
    simp only [altFrom, Bool.and_eq_true, beq_iff_eq] at h
    obtain ⟨hx, hr⟩ := h
    show ((x == e) && altFrom (!e) (r ++ [b])) =
      (b == if (x :: r).length % 2 = 0 then e else !e)
    rw [hx, ih (!e) hr]
    simp only [beq_self_eq_true, Bool.true_and, List.length_cons, Bool.not_not]
    rcases Nat.even_or_odd r.length with hev | hod
    · have h0 : r.length % 2 = 0 := Nat.even_iff.mp hev
      have h1 : ¬(r.length + 1) % 2 = 0 := by omega
      simp [h0, h1]
    · have hodd := Nat.odd_iff.mp hod
      have h0 : ¬r.length % 2 = 0 := by omega
      have h1 : (r.length + 1) % 2 = 0 := by omega
      simp [h0, h1]

theorem notifyInv_notify (st : ConnState) (b : Bool) (h : NotifyInv st)
    (hb : st.notifiedDdmActive = !b) : NotifyInv (notifyDdms st b) := by
  obtain ⟨h1, h2⟩ := h
  rw [h2] at hb
  constructor
  · show altFrom true (st.notifications ++ [b]) = true
    rw [altFrom_append _ _ _ h1]
    cases b with
    | true =>
      have : st.notifications.length % 2 = 0 := by
        by_contra hc
        have hm : st.notifications.length % 2 = 1 := by omega
        simp [hm] at hb
      simp [this]
    | false =>
      have : st.notifications.length % 2 = 1 := by
        by_contra hc
        have hm : st.notifications.length % 2 = 0 := by omega
        simp [hm] at hb
      have : ¬st.notifications.length % 2 = 0 := by omega
      simp [this]
  · show b = ((st.notifications ++ [b]).length % 2 == 1)
    rw [List.length_append]
    cases b with
    | true =>
      have : st.notifications.length % 2 = 0 := by
        by_contra hc
        have hm : st.notifications.length % 2 = 1 := by omega
        simp [hm] at hb
      have hm1 : (st.notifications.length + 1) % 2 = 1 := by omega
      simp [hm1]
    | false =>
      have : st.notifications.length % 2 = 1 := by
        by_contra hc
        have hm : st.notifications.length % 2 = 0 := by omega
        simp [hm] at hb
      have hm1 : (st.notifications.length + 1) % 2 = 0 := by omega
      simp [hm1]

theorem notifyInv_closeFds (st : ConnState) (h : NotifyInv st) :
    NotifyInv (closeFds st) := by
  unfold closeFds closeFdsFull
  split
  · rename_i hc
    exact notifyInv_notify _ false ⟨h.1, h.2⟩ (by simp [hc.2])
  · exact ⟨h.1, h.2⟩

theorem notifyInv_handleData (st : ConnState) (buf : List Nat)
    (handler : Nat → List Nat → Option (Nat × List Nat)) (attachOk : Bool)
    (h : NotifyInv st) :
    NotifyInv (handleDataWithoutAgent st buf handler attachOk).st := by
  rcases handleData_st_cases st buf handler attachOk with
    hc | hc | hc | ⟨hc, hn⟩ | hc <;> rw [hc]
  · exact notifyInv_closeFds st h
  · unfold attachAgent
    split
    · exact ⟨h.1, h.2⟩
    · exact h
  · exact h
  · refine notifyInv_notify st true ⟨h.1, h.2⟩ ?_
    simp [hn]
  · exact ⟨h.1, h.2⟩

theorem notifyInv_sendAgentFds (st : ConnState) (rq : Bool)
    (site : HandoffSite) (ok : Bool) (h : NotifyInv st) :
    NotifyInv (sendAgentFds st rq site ok) := by
  unfold sendAgentFds
  split
  · exact ⟨h.1, h.2⟩
  · exact h

theorem notifyInv_step (st : ConnState) (e : Event) (h : NotifyInv st) :
    NotifyInv (step st e) := by
  cases e with
  | connect ok =>
    simp only [step]
    split
    · exact h
    · split
      · exact h
      · exact ⟨h.1, h.2⟩
  | agentMsg tok sendOk =>
    cases tok with
    | listenStart =>
      simp only [step]
      split
      · exact h
      · split
        · exact h
        · split
          · exact notifyInv_sendAgentFds _ _ _ _ ⟨h.1, h.2⟩
          · exact ⟨h.1, h.2⟩
    | listenEnd =>
      simp only [step]
      split
      · exact h
      · split
        · exact h
        · exact ⟨h.1, h.2⟩
    | handshakeComplete =>
      simp only [step]
      split
      · exact h
      · split
        · exact h
        · split
          · exact ⟨h.1, h.2⟩
          · exact h
    | close =>
      simp only [step]
      split
      · exact h
      · split
        · exact h
        · have hcl := notifyInv_closeFds st h
          exact ⟨hcl.1, hcl.2⟩
    | accept =>
      simp only [step]
      split
      · exact h
      · split
        · exact h
        · exact ⟨h.1, h.2⟩
    | unknown =>
      simp only [step]
      split
      · exact h
      · split
        · exact h
        · exact h
  | daemonAccept newFd sendOk =>
    simp only [step]
    split
    · exact h
    · split
      · exact h
      · split
        · exact ⟨h.1, h.2⟩
        · split
          · exact notifyInv_sendAgentFds _ _ _ _ ⟨h.1, h.2⟩
          · exact ⟨h.1, h.2⟩
  | daemonHangup =>
    simp only [step]
    split
    · exact h
    · split
      · exact h
      · exact ⟨h.1, h.2⟩
  | debugData buf handler attachOk sendOk =>
    simp only [step]
    split
    · exact h
    · split
      · exact h
      · split
        · exact notifyInv_handleData _ _ _ _ h
        · split
          · exact notifyInv_sendAgentFds _ _ _ _ h
          · exact h
  | debugHangup =>
    simp only [step]
    split
    · exact h
    · split
      · exact h
      · exact notifyInv_closeFds st h
  | stop =>
    simp only [step]
    split
    · exact h
    · exact ⟨h.1, h.2⟩

theorem notifyInv_foldl (events : List Event) :
    ∀ st : ConnState, NotifyInv st → NotifyInv (events.foldl step st) := by
  induction events with
  | nil => intro st h; exact h
  | cons e rest ih =>
    intro st h
    exact ih (step st e) (notifyInv_step st e h)

theorem notifyInv_run (events : List Event) : NotifyInv (run events) :=
  notifyInv_foldl events initState ⟨rfl, rfl⟩



theorem attachAgent_debugSocket (st : ConnState) (ok : Bool) :
    (attachAgent st ok).debugSocket = st.debugSocket := by
  unfold attachAgent
  split <;> rfl

/-! ## Claim theorems -/

/-- C9: in every execution the monitor-active / monitor-inactive
notifications strictly alternate starting with active (an active
notification is sent only while `notified_ddm_active_` is false and an
inactive one only while it is true, so the same notification is never
fired twice in a row), and `notified_ddm_active_` always records
whether the last notification was the active one. -/
theorem ddm_notifications_alternate (events : List Event) :
    altFrom true (run events).notifications = true ∧
      (run events).notifiedDdmActive =
        ((run events).notifications.length % 2 == 1) :=
  notifyInv_run events

/-- C8: every `CloseFds` leaves `adb_connection_socket_ = -1` and
`performed_handshake_ = false`, performs the socket reset strictly
between acquiring and releasing the write-guard eventfd, and fires the
monitor-inactive notification if and only if the agent was never
loaded and a monitor-active notification had previously been sent. -/
theorem close_release_contract (st : ConnState) :
    (closeFds st).debugSocket = -1 ∧
      (closeFds st).performedHandshake = false ∧
      CloseAction.socketReset ∈ (closeFdsFull st).snd ∧
      resetUnderLock (closeFdsFull st).snd = true ∧
      (CloseAction.notifyInactive ∈ (closeFdsFull st).snd ↔
        (st.agentLoaded = false ∧ st.notifiedDdmActive = true)) := by
  refine ⟨closeFds_debugSocket st, closeFds_performedHandshake st, ?_, ?_, ?_⟩
  · unfold closeFdsFull
    split
    · simp
    · simp
  · unfold closeFdsFull
    split
    · rfl
    · rfl
  · unfold closeFdsFull
    split
    · rename_i hc
      constructor
      · intro _
        exact ⟨by simpa using hc.1, hc.2⟩
      · intro _
        simp
    · rename_i hc
      constructor
      · intro hmem
        exact absurd hmem (by simp)
      · intro hrhs
        exact absurd ⟨by simp [hrhs.1], hrhs.2⟩ hc

/-- C10 (evidence for the code bug): a maximal successful
agent-control read returns `res = 256` bytes (the recv asks for
`sizeof(buf) - 1 = 256`), and the NUL store `buf[res + 1]` then
addresses index 257, which is out of bounds for the 257-byte buffer
(valid indices are 0..256).  The claim that the store stays in bounds
for every `0 <= res <= 256` is therefore violated by the code. -/
theorem agent_control_nul_out_of_bounds :
    kAgentRecvMax = 256 ∧ nulStoreIndex kAgentRecvMax = 257 ∧
      ¬nulStoreIndex kAgentRecvMax < kAgentBufSize := by
  decide

/-- C2 (counterexample): with the daemon never reachable and no
shutdown, the first three sleeps of the retry loop are 500, 750 and
1125 ms — not the 500, 1000, 2000 ms the claim's doubling schedule
predicts (the code grows `sleep_ms` by `sleep_ms >> 1`, a factor of
1.5, not 2). -/
theorem backoff_not_doubling_cex :
    (runSetup (fun _ => false) (fun _ => false) 3).sleeps = [500, 750, 1125] ∧
      ¬(runSetup (fun _ => false) (fun _ => false) 3).sleeps =
        [500, 1000, 2000] := by
  constructor
  · rfl
  · decide

/-- C2 (amended): the sleep before the n-th retry starts at 500 ms and
after each failure grows by half its value (`sleep_ms += sleep_ms >> 1`),
capped at 2000 ms, giving 500, 750, 1125, 1687, 2000, 2000, ... ms; the
performed sleeps always follow that schedule, and the loop exits with
failure as soon as `shutting_down_` is observed true. -/
theorem backoff_growth_spec :
    sleepAt 0 = 500 ∧ sleepAt 1 = 750 ∧ sleepAt 2 = 1125 ∧
      sleepAt 3 = 1687 ∧
      (∀ n : Nat, sleepAt (n + 1) = min (sleepAt n + sleepAt n / 2) 2000) ∧
      (∀ n : Nat, 4 ≤ n → sleepAt n = 2000) ∧
      (∀ sh co : Nat → Bool, ∀ fuel : Nat,
        (runSetup sh co fuel).sleeps =
          (List.range (runSetup sh co fuel).sleeps.length).map sleepAt) ∧
      (∀ sh co : Nat → Bool, ∀ fuel k : Nat, k < fuel → sh k = true →
        (∀ j, j < k → sh j = false ∧ co j = false) →
        runSetup sh co fuel =
          { result := some false, sleeps := (List.range k).map sleepAt }) := by
  refine ⟨rfl, rfl, rfl, rfl, fun n => rfl, sleepAt_ge_four, ?_, ?_⟩
  · intro sh co fuel
    have h := setupLoop_sleeps_follow sh co fuel 0
    simpa [runSetup, sleepAt] using h
  · intro sh co fuel k hk hsh hpre
    have h := setupLoop_stops sh co k fuel 0 hk (by simpa using hsh)
      (by intro j hj; simpa using hpre j hj)
    simpa [runSetup, sleepAt] using h

/-- C1 (counterexample): after connect, adopting a client, completing
the handshake, loading the agent on an ununderstood packet and
receiving `listen-start`, the reachable state has
`sent_agent_fds_ = true` while `agent_has_socket_ = false`; a further
`close` token additionally leaves `sent_agent_fds_ = true` with
`adb_connection_socket_ = -1`.  Both conjuncts of the claimed
invariant fail on reachable states. -/
theorem sent_fds_invariant_cex :
    (run trSentNoAccept).sentAgentFds = true ∧
      (run trSentNoAccept).agentHasSocket = false ∧
      (run trSentNoSocket).sentAgentFds = true ∧
      (run trSentNoSocket).debugSocket = -1 := by
  refine ⟨rfl, rfl, rfl, rfl⟩

/-- C1 (amended): whenever a step newly sets `sent_agent_fds_`, the
debug socket is owned (`debugSocket ≠ -1`) at the moment of transfer —
the fds sent are duplicates of a live socket.  The flag does not
persistently imply `agent_has_socket_` (that flag only becomes true on
the later `accept` token, which simultaneously clears
`sent_agent_fds_`) nor a still-owned socket (a `close` token resets
the socket without clearing `sent_agent_fds_`). -/
theorem sent_fds_set_with_socket_owned (st : ConnState) (e : Event) :
    (step st e).sentAgentFds = true →
      st.sentAgentFds = true ∨ (step st e).debugSocket ≠ -1 := by
  cases e with
  | connect ok =>
    simp only [step]
    split
    · intro h; exact Or.inl h
    · split
      · intro h; exact Or.inl h
      · intro h; exact Or.inl h
  | agentMsg tok sendOk =>
    cases tok with
    | listenStart =>
      simp only [step]
      split
      · intro h; exact Or.inl h
      · split
        · intro h; exact Or.inl h
        · split
          · rename_i hsock
            unfold sendAgentFds
            split
            · intro _; exact Or.inr hsock
            · intro h; exact Or.inl h
          · intro h; exact Or.inl h
    | listenEnd =>
      simp only [step]
      split
      · intro h; exact Or.inl h
      · split
        · intro h; exact Or.inl h
        · intro h; exact Or.inl h
    | handshakeComplete =>
      simp only [step]
      split
      · intro h; exact Or.inl h
      · split
        · intro h; exact Or.inl h
        · split
          · intro h; exact Or.inl h
          · intro h; exact Or.inl h
    | close =>
      simp only [step]
      split
      · intro h; exact Or.inl h
      · split
        · intro h; exact Or.inl h
        · intro h
          have h' : (closeFds st).sentAgentFds = true := h
          rw [closeFds_sentAgentFds] at h'
          exact Or.inl h'
    | accept =>
      simp only [step]
      split
      · intro h; exact Or.inl h
      · split
        · intro h; exact Or.inl h
        · intro h; exact (Bool.false_ne_true h).elim
    | unknown =>
      simp only [step]
      split
      · intro h; exact Or.inl h
      · split
        · intro h; exact Or.inl h
        · intro h; exact Or.inl h
  | daemonAccept newFd sendOk =>
    simp only [step]
    split
    · intro h; exact Or.inl h
    · split
      · intro h; exact Or.inl h
      · split
        · intro h; exact Or.inl h
        · split
          · rename_i hfd _
            unfold sendAgentFds
            split
            · intro _; exact Or.inr hfd
            · intro h; exact Or.inl h
          · intro h; exact Or.inl h
  | daemonHangup =>
    simp only [step]
    split
    · intro h; exact Or.inl h
    · split
      · intro h; exact Or.inl h
      · intro h; exact Or.inl h
  | debugData buf handler attachOk sendOk =>
    simp only [step]
    split
    · intro h; exact Or.inl h
    · split
      · intro h; exact Or.inl h
      · split
        · intro h
          have h' : (handleDataWithoutAgent st buf handler attachOk).st.sentAgentFds
              = true := h
          rw [handleData_sentAgentFds] at h'
          exact Or.inl h'
        · split
          · rename_i hguard _ _
            unfold sendAgentFds
            split
            · intro _
              simp only [not_or] at hguard
              exact Or.inr hguard.2.1
            · intro h; exact Or.inl h
          · intro h; exact Or.inl h
  | debugHangup =>
    simp only [step]
    split
    · intro h; exact Or.inl h
    · split
      · intro h; exact Or.inl h
      · intro h
        have h' : (closeFds st).sentAgentFds = true := h
        rw [closeFds_sentAgentFds] at h'
        exact Or.inl h'
  | stop =>
    simp only [step]
    split
    · intro h; exact Or.inl h
    · intro h; exact Or.inl h

/-- C1 (witness): the amended transfer-time property applied to the
concrete reachable state right before the `listen-start` handoff of
the counterexample trace. -/
theorem sent_fds_set_with_socket_owned_witness :
    (run [Event.connect true, Event.daemonAccept 3 true,
        Event.debugData kJdwpHandshake noReply false true,
        Event.debugData nonDdmPacket noReply true true]).sentAgentFds = true ∨
      (step
        (run [Event.connect true, Event.daemonAccept 3 true,
          Event.debugData kJdwpHandshake noReply false true,
          Event.debugData nonDdmPacket noReply true true])
        (Event.agentMsg Token.listenStart true)).debugSocket ≠ -1 :=
  sent_fds_set_with_socket_owned
    (run [Event.connect true, Event.daemonAccept 3 true,
      Event.debugData kJdwpHandshake noReply false true,
      Event.debugData nonDdmPacket noReply true true])
    (Event.agentMsg Token.listenStart true) (by decide)

/-- C7 (counterexample): in the trace `trStaleHandshakeFlag` the final
`listen-start` handoff transmits the `"skip-handshake"` token
(`requireHandshake = false`) although no handshake was completed on
the then-current physical connection (`connHandshakedAtCall = false`):
stale `accept`/`handshake-complete` tokens re-set
`performed_handshake_` after the connection they referred to had been
closed.  The token therefore does not track "handshake completed on
the current physical connection". -/
theorem handoff_token_tracking_cex :
    (run trStaleHandshakeFlag).handoffs.getLast? =
      some { requireHandshake := false, site := HandoffSite.listenStart,
             phAtCall := true, connHandshakedAtCall := false } := by
  rfl

/-- C7 (amended): every handoff's token is determined by the
`performed_handshake_` flag, not by the per-connection handshake
history: a `listen-start` handoff carries `"skip-handshake"` iff
`performed_handshake_` was already true at the call, and a handoff
triggered by adopting a new connection, or by data arriving with the
agent listening, always carries `"perform-handshake"`. -/
theorem handoff_token_matches_flag (st : ConnState) (e : Event) :
    (step st e).handoffs = st.handoffs ∨
      ∃ h : Handoff, (step st e).handoffs = st.handoffs ++ [h] ∧
        h.phAtCall = st.performedHandshake ∧ handoffOk h = true := by
  cases e with
  | connect ok =>
    simp only [step]
    split
    · exact Or.inl rfl
    · split
      · exact Or.inl rfl
      · exact Or.inl rfl
  | agentMsg tok sendOk =>
    cases tok with
    | listenStart =>
      simp only [step]
      split
      · exact Or.inl rfl
      · split
        · exact Or.inl rfl
        · split
          · unfold sendAgentFds
            split
            · exact Or.inr ⟨_, rfl, rfl, by simp [handoffOk]⟩
            · exact Or.inl rfl
          · exact Or.inl rfl
    | listenEnd =>
      simp only [step]
      split
      · exact Or.inl rfl
      · split
        · exact Or.inl rfl
        · exact Or.inl rfl
    | handshakeComplete =>
      simp only [step]
      split
      · exact Or.inl rfl
      · split
        · exact Or.inl rfl
        · split
          · exact Or.inl rfl
          · exact Or.inl rfl
    | close =>
      simp only [step]
      split
      · exact Or.inl rfl
      · split
        · exact Or.inl rfl
        · exact Or.inl (closeFds_handoffs st)
    | accept =>
      simp only [step]
      split
      · exact Or.inl rfl
      · split
        · exact Or.inl rfl
        · exact Or.inl rfl
    | unknown =>
      simp only [step]
      split
      · exact Or.inl rfl
      · split
        · exact Or.inl rfl
        · exact Or.inl rfl
  | daemonAccept newFd sendOk =>
    simp only [step]
    split
    · exact Or.inl rfl
    · split
      · exact Or.inl rfl
      · split
        · exact Or.inl rfl
        · split
          · unfold sendAgentFds
            split
            · exact Or.inr ⟨_, rfl, rfl, by simp [handoffOk]⟩
            · exact Or.inl rfl
          · exact Or.inl rfl
  | daemonHangup =>
    simp only [step]
    split
    · exact Or.inl rfl
    · split
      · exact Or.inl rfl
      · exact Or.inl rfl
  | debugData buf handler attachOk sendOk =>
    simp only [step]
    split
    · exact Or.inl rfl
    · split
      · exact Or.inl rfl
      · split
        · exact Or.inl (handleData_handoffs st buf handler attachOk)
        · split
          · unfold sendAgentFds
            split
            · exact Or.inr ⟨_, rfl, rfl, by simp [handoffOk]⟩
            · exact Or.inl rfl
          · exact Or.inl rfl
  | debugHangup =>
    simp only [step]
    split
    · exact Or.inl rfl
    · split
      · exact Or.inl rfl
      · exact Or.inl (closeFds_handoffs st)
  | stop =>
    simp only [step]
    split
    · exact Or.inl rfl
    · exact Or.inl rfl



/-- C3: in handshake phase, if at least the 14 handshake bytes are
readable and they equal `"JDWP-Handshake"`, the coordinator writes
exactly those 14 bytes back, sets `performed_handshake_` and keeps the
connection open; with fewer readable bytes or different content the
connection is closed and nothing is written back. -/
theorem handshake_round_trip (st : ConnState) (buf : List Nat)
    (handler : Nat → List Nat → Option (Nat × List Nat)) (attachOk : Bool)
    (hph : st.performedHandshake = false) :
    (kJdwpHandshake.length ≤ buf.length ∧
        buf.take kJdwpHandshake.length = kJdwpHandshake →
      (handleDataWithoutAgent st buf handler attachOk).written =
          kJdwpHandshake ∧
        (handleDataWithoutAgent st buf handler attachOk).st.performedHandshake
          = true ∧
        (handleDataWithoutAgent st buf handler attachOk).closedConn = false) ∧
    (buf.length < kJdwpHandshake.length ∨
        buf.take kJdwpHandshake.length ≠ kJdwpHandshake →
      (handleDataWithoutAgent st buf handler attachOk).closedConn = true ∧
        (handleDataWithoutAgent st buf handler attachOk).written = [] ∧
        (handleDataWithoutAgent st buf handler attachOk).st.debugSocket = -1) := by
  have hred : handleDataWithoutAgent st buf handler attachOk =
      performHandshakeStep st buf := by
    unfold handleDataWithoutAgent
    rw [if_pos (show ¬st.performedHandshake = true by simp [hph])]
  rw [hred]
  constructor
  · rintro ⟨hlen, htake⟩
    unfold performHandshakeStep
    rw [if_neg (by omega), if_neg (by simp [htake])]
    exact ⟨rfl, rfl, rfl⟩
  · intro hbad
    unfold performHandshakeStep
    rcases Nat.lt_or_ge buf.length kJdwpHandshake.length with hlt | hge
    · rw [if_pos hlt]
      exact ⟨rfl, rfl, closeFds_debugSocket st⟩
    · have hne : buf.take kJdwpHandshake.length ≠ kJdwpHandshake := by
        rcases hbad with hb | hb
        · omega
        · exact hb
      rw [if_neg (by omega), if_pos hne]
      exact ⟨rfl, rfl, closeFds_debugSocket st⟩

/-- C3 (witness): the round trip on the exact handshake bytes. -/
theorem handshake_round_trip_witness :
    (handleDataWithoutAgent initState kJdwpHandshake noReply false).written =
        kJdwpHandshake ∧
      (handleDataWithoutAgent initState kJdwpHandshake noReply
          false).st.performedHandshake = true ∧
      (handleDataWithoutAgent initState kJdwpHandshake noReply
          false).closedConn = false :=
  (handshake_round_trip initState kJdwpHandshake noReply false rfl).1
    ⟨by decide, by decide⟩

/-- C5: in packet phase, provided the peek returns at least one byte,
the agent is attached iff the peeked header is shorter than 11 bytes,
or the command-set byte is not 199, or the command byte is not 1, or
the declared total length is below 11, or fewer bytes than the
declared total length are readable; in every escalation case no bytes
are consumed, the connection is not closed and the socket is kept. -/
theorem packet_escalation_iff (st : ConnState) (buf : List Nat)
    (handler : Nat → List Nat → Option (Nat × List Nat)) (attachOk : Bool)
    (hph : st.performedHandshake = true) (hne : buf ≠ []) :
    ((handleDataWithoutAgent st buf handler attachOk).attachedAgent = true ↔
      (buf.length < kPacketHeaderLen ∨ buf.getD 9 0 ≠ kDdmCommandSet ∨
        buf.getD 10 0 ≠ kDdmChunkCommand ∨
        hdrFullLen buf < kPacketHeaderLen ∨
        buf.length < hdrFullLen buf)) ∧
    ((handleDataWithoutAgent st buf handler attachOk).attachedAgent = true →
      (handleDataWithoutAgent st buf handler attachOk).consumed = 0 ∧
        (handleDataWithoutAgent st buf handler attachOk).closedConn = false ∧
        (handleDataWithoutAgent st buf handler attachOk).st.debugSocket =
          st.debugSocket) := by
  have hlen0 : buf.length ≠ 0 := by
    intro hc
    exact hne (List.eq_nil_of_length_eq_zero hc)
  have hred : handleDataWithoutAgent st buf handler attachOk =
      packetPhase st buf handler attachOk := by
    unfold handleDataWithoutAgent
    rw [if_neg (by simp [hph])]
  rw [hred]
  simp only [packetPhase]
  by_cases h1 : buf.length < kPacketHeaderLen
  · have hmin : min kPacketHeaderLen buf.length = buf.length :=
      Nat.min_eq_right (Nat.le_of_lt h1)
    rw [hmin, if_neg hlen0, if_pos h1]
    exact ⟨iff_of_true rfl (Or.inl h1),
      fun _ => ⟨rfl, rfl, attachAgent_debugSocket st attachOk⟩⟩
  · have hmin : min kPacketHeaderLen buf.length = kPacketHeaderLen :=
      Nat.min_eq_left (Nat.le_of_not_lt h1)
    rw [hmin, if_neg (by decide : ¬kPacketHeaderLen = 0),
      if_neg (by omega : ¬kPacketHeaderLen < kPacketHeaderLen)]
    by_cases hc : buf.getD 9 0 ≠ kDdmCommandSet ∨
        buf.getD 10 0 ≠ kDdmChunkCommand ∨ hdrFullLen buf < kPacketHeaderLen
    · rw [if_pos hc]
      refine ⟨iff_of_true rfl ?_,
        fun _ => ⟨rfl, rfl, attachAgent_debugSocket st attachOk⟩⟩
      rcases hc with hx | hx | hx
      · exact Or.inr (Or.inl hx)
      · exact Or.inr (Or.inr (Or.inl hx))
      · exact Or.inr (Or.inr (Or.inr (Or.inl hx)))
    · rw [if_neg hc]
      push_neg at hc
      obtain ⟨hc9, hc10, hcl⟩ := hc
      by_cases h5 : buf.length < hdrFullLen buf
      · rw [if_pos h5]
        exact ⟨iff_of_true rfl (Or.inr (Or.inr (Or.inr (Or.inr h5)))),
          fun _ => ⟨rfl, rfl, attachAgent_debugSocket st attachOk⟩⟩
      · rw [if_neg h5]
        have hrhs : ¬(buf.length < kPacketHeaderLen ∨
            buf.getD 9 0 ≠ kDdmCommandSet ∨
            buf.getD 10 0 ≠ kDdmChunkCommand ∨
            hdrFullLen buf < kPacketHeaderLen ∨
            buf.length < hdrFullLen buf) := by
          push_neg
          exact ⟨Nat.le_of_not_lt h1, hc9, hc10, hcl, Nat.le_of_not_lt h5⟩
        have hatt : ∀ hv : Bool,
            (if hdrFullLen buf - kPacketHeaderLen < 8 then
              ({ st := st, consumed := hdrFullLen buf, written := [],
                 attachedAgent := false, callbackInvoked := false,
                 closedConn := false } : HandleResult)
            else
              if ntohl4 (buf.getD 15 0) (buf.getD 16 0) (buf.getD 17 0)
                  (buf.getD 18 0) > hdrFullLen buf - kPacketHeaderLen - 8 then
                { st := st, consumed := hdrFullLen buf, written := [],
                  attachedAgent := false, callbackInvoked := false,
                  closedConn := false }
              else
                match handler
                    (ntohl4 (buf.getD 11 0) (buf.getD 12 0) (buf.getD 13 0)
                      (buf.getD 14 0))
                    ((buf.drop 19).take
                      (ntohl4 (buf.getD 15 0) (buf.getD 16 0) (buf.getD 17 0)
                        (buf.getD 18 0))) with
                | none =>
                  { st := if ¬st.notifiedDdmActive = true then
                        notifyDdms st true else st,
                    consumed := hdrFullLen buf, written := [],
                    attachedAgent := false, callbackInvoked := true,
                    closedConn := false }
                | some (replyTy, reply) =>
                  { st := if ¬st.notifiedDdmActive = true then
                        notifyDdms st true else st,
                    consumed := hdrFullLen buf,
                    written := sendDdmOut
                      (if ¬st.notifiedDdmActive = true then
                        notifyDdms st true else st)
                      (hdrPktId buf) DdmPacketType.kReply replyTy reply,
                    attachedAgent := false, callbackInvoked := true,
                    closedConn := false }).attachedAgent = hv → hv = false := by
          intro hv
          split
          · intro hveq; exact hveq.symm
          · split
            · intro hveq; exact hveq.symm
            · split <;> (intro hveq; exact hveq.symm)
        constructor
        · constructor
          · intro hl
            exact absurd (hatt true hl).symm Bool.false_ne_true
          · intro hr
            exact absurd hr hrhs
        · intro hl
          exact absurd (hatt true hl).symm Bool.false_ne_true

/-- C5 (witness): an 11-byte packet with command set 0 escalates to
the agent. -/
theorem packet_escalation_iff_witness :
    (handleDataWithoutAgent { initState with performedHandshake := true }
        nonDdmPacket noReply false).attachedAgent = true :=
  ((packet_escalation_iff { initState with performedHandshake := true }
      nonDdmPacket noReply false rfl (by decide)).1).mpr
    (Or.inr (Or.inl (by decide)))

/-- C6: a locally handled recognized packet with malformed inner
framing (payload after the 11-byte header shorter than 8 bytes, or
declared inner length exceeding the remaining payload) is consumed in
full and silently dropped: nothing is written back, the diagnostic
callback is not invoked, the connection is not closed and the state is
unchanged. -/
theorem malformed_inner_framing_dropped (st : ConnState) (buf : List Nat)
    (handler : Nat → List Nat → Option (Nat × List Nat)) (attachOk : Bool)
    (hph : st.performedHandshake = true)
    (h11 : kPacketHeaderLen ≤ buf.length)
    (h9 : buf.getD 9 0 = kDdmCommandSet)
    (h10 : buf.getD 10 0 = kDdmChunkCommand)
    (hfl : kPacketHeaderLen ≤ hdrFullLen buf)
    (hav : hdrFullLen buf ≤ buf.length)
    (hmal : hdrFullLen buf - kPacketHeaderLen < 8 ∨
      hdrFullLen buf - kPacketHeaderLen - 8 <
        ntohl4 (buf.getD 15 0) (buf.getD 16 0) (buf.getD 17 0)
          (buf.getD 18 0)) :
    (handleDataWithoutAgent st buf handler attachOk).consumed =
        hdrFullLen buf ∧
      (handleDataWithoutAgent st buf handler attachOk).written = [] ∧
      (handleDataWithoutAgent st buf handler attachOk).callbackInvoked =
        false ∧
      (handleDataWithoutAgent st buf handler attachOk).closedConn = false ∧
      (handleDataWithoutAgent st buf handler attachOk).st = st := by
  have hred : handleDataWithoutAgent st buf handler attachOk =
      packetPhase st buf handler attachOk := by
    unfold handleDataWithoutAgent
    rw [if_neg (by simp [hph])]
  rw [hred]
  simp only [packetPhase]
  have hmin : min kPacketHeaderLen buf.length = kPacketHeaderLen :=
    Nat.min_eq_left h11
  rw [hmin, if_neg (by decide : ¬kPacketHeaderLen = 0),
    if_neg (by omega : ¬kPacketHeaderLen < kPacketHeaderLen),
    if_neg (show ¬(buf.getD 9 0 ≠ kDdmCommandSet ∨
      buf.getD 10 0 ≠ kDdmChunkCommand ∨
      hdrFullLen buf < kPacketHeaderLen) by
        push_neg
        exact ⟨h9, h10, hfl⟩),
    if_neg (by omega : ¬buf.length < hdrFullLen buf)]
  rcases Nat.lt_or_ge (hdrFullLen buf - kPacketHeaderLen) 8 with hds | hds
  · rw [if_pos hds]
    exact ⟨rfl, rfl, rfl, rfl, rfl⟩
  · have hml : hdrFullLen buf - kPacketHeaderLen - 8 <
        ntohl4 (buf.getD 15 0) (buf.getD 16 0) (buf.getD 17 0)
          (buf.getD 18 0) := by
      rcases hmal with hm | hm
      · omega
      · exact hm
    rw [if_neg (by omega : ¬hdrFullLen buf - kPacketHeaderLen < 8),
      if_pos hml]
    exact ⟨rfl, rfl, rfl, rfl, rfl⟩

/-- C6 (witness): a DDM chunk packet whose declared total length is
exactly the header length (no room for the inner sub-header) is
consumed and silently dropped. -/
theorem malformed_inner_framing_dropped_witness :
    (handleDataWithoutAgent { initState with performedHandshake := true }
        (htonl 11 ++ htonl 1 ++ [0, kDdmCommandSet, kDdmChunkCommand])
        noReply false).consumed =
      hdrFullLen (htonl 11 ++ htonl 1 ++
        [0, kDdmCommandSet, kDdmChunkCommand]) ∧
    (handleDataWithoutAgent { initState with performedHandshake := true }
        (htonl 11 ++ htonl 1 ++ [0, kDdmCommandSet, kDdmChunkCommand])
        noReply false).written = [] ∧
    (handleDataWithoutAgent { initState with performedHandshake := true }
        (htonl 11 ++ htonl 1 ++ [0, kDdmCommandSet, kDdmChunkCommand])
        noReply false).callbackInvoked = false ∧
    (handleDataWithoutAgent { initState with performedHandshake := true }
        (htonl 11 ++ htonl 1 ++ [0, kDdmCommandSet, kDdmChunkCommand])
        noReply false).closedConn = false ∧
    (handleDataWithoutAgent { initState with performedHandshake := true }
        (htonl 11 ++ htonl 1 ++ [0, kDdmCommandSet, kDdmChunkCommand])
        noReply false).st = { initState with performedHandshake := true } :=
  malformed_inner_framing_dropped { initState with performedHandshake := true }
    (htonl 11 ++ htonl 1 ++ [0, kDdmCommandSet, kDdmChunkCommand])
    noReply false rfl (by decide) (by decide) (by decide) (by decide)
    (by decide) (Or.inl (by decide))



theorem ntohl4_encode (n : Nat) (h : n < 2 ^ 32) :
    ntohl4 (n % 2 ^ 32 / 2 ^ 24) (n % 2 ^ 24 / 2 ^ 16) (n % 2 ^ 16 / 2 ^ 8)
      (n % 2 ^ 8) = n := by
  have h32 : (2 : Nat) ^ 32 = 4294967296 := by norm_num
  have h24 : (2 : Nat) ^ 24 = 16777216 := by norm_num
  have h16 : (2 : Nat) ^ 16 = 65536 := by norm_num
  have h8 : (2 : Nat) ^ 8 = 256 := by norm_num
  rw [h32] at h
  unfold ntohl4
  rw [h32, h24, h16, h8]
  omega

theorem mkDdm_decode (idv flags ty : Nat) (payload rest : List Nat)
    (hid : idv < 2 ^ 32) (hty : ty < 2 ^ 32)
    (hlen : kPacketHeaderLen + 4 + 4 + payload.length < 2 ^ 32) :
    hdrFullLen (mkDdmCmdPacket idv flags ty payload ++ rest) =
        kPacketHeaderLen + 4 + 4 + payload.length ∧
      hdrPktId (mkDdmCmdPacket idv flags ty payload ++ rest) = idv ∧
      (mkDdmCmdPacket idv flags ty payload ++ rest).getD 9 0 =
        kDdmCommandSet ∧
      (mkDdmCmdPacket idv flags ty payload ++ rest).getD 10 0 =
        kDdmChunkCommand ∧
      ntohl4 ((mkDdmCmdPacket idv flags ty payload ++ rest).getD 11 0)
        ((mkDdmCmdPacket idv flags ty payload ++ rest).getD 12 0)
        ((mkDdmCmdPacket idv flags ty payload ++ rest).getD 13 0)
        ((mkDdmCmdPacket idv flags ty payload ++ rest).getD 14 0) = ty ∧
      ntohl4 ((mkDdmCmdPacket idv flags ty payload ++ rest).getD 15 0)
        ((mkDdmCmdPacket idv flags ty payload ++ rest).getD 16 0)
        ((mkDdmCmdPacket idv flags ty payload ++ rest).getD 17 0)
        ((mkDdmCmdPacket idv flags ty payload ++ rest).getD 18 0) =
        payload.length ∧
      (mkDdmCmdPacket idv flags ty payload ++ rest).drop 19 =
        payload ++ rest ∧
      (mkDdmCmdPacket idv flags ty payload ++ rest).length =
        kPacketHeaderLen + 4 + 4 + payload.length + rest.length := by
  have hpl : payload.length < 2 ^ 32 := by
    have : kPacketHeaderLen = 11 := rfl
    omega
  refine ⟨?_, ?_, ?_, ?_, ?_, ?_, ?_, ?_⟩
  · show hdrFullLen _ = _
    simp only [mkDdmCmdPacket, htonl, List.cons_append, List.nil_append,
      hdrFullLen, List.getD_cons_zero, List.getD_cons_succ]
    exact ntohl4_encode _ hlen
  · simp only [mkDdmCmdPacket, htonl, List.cons_append, List.nil_append,
      hdrPktId, List.getD_cons_zero, List.getD_cons_succ]
    exact ntohl4_encode _ hid
  · simp only [mkDdmCmdPacket, htonl, List.cons_append, List.nil_append,
      List.getD_cons_zero, List.getD_cons_succ]
  · simp only [mkDdmCmdPacket, htonl, List.cons_append, List.nil_append,
      List.getD_cons_zero, List.getD_cons_succ]
  · simp only [mkDdmCmdPacket, htonl, List.cons_append, List.nil_append,
      List.getD_cons_zero, List.getD_cons_succ]
    exact ntohl4_encode _ hty
  · simp only [mkDdmCmdPacket, htonl, List.cons_append, List.nil_append,
      List.getD_cons_zero, List.getD_cons_succ]
    exact ntohl4_encode _ hpl
  · simp only [mkDdmCmdPacket, htonl, List.cons_append, List.nil_append,
      List.drop_succ_cons, List.drop_zero]
  · simp only [mkDdmCmdPacket, htonl, List.cons_append, List.nil_append,
      List.length_cons, List.length_append]
    have hk : kPacketHeaderLen = 11 := rfl
    omega

/-- C4: a well-formed recognized DDM chunk packet with id `I`, type
`T` and payload `P`, fully readable, for which the diagnostic callback
answers `(true, T', P')`, produces exactly one outgoing packet: the
11-byte header with big-endian total length `11 + 8 + |P'|`, big-endian
id `I` and the reply variant of the flags byte (followed by the two
zero error-code bytes), then big-endian `T'`, big-endian `|P'|` and
`P'` itself; the whole incoming packet is consumed, the callback is
invoked and the connection stays open. -/
theorem ddm_reply_roundtrip (st : ConnState)
    (handler : Nat → List Nat → Option (Nat × List Nat)) (attachOk : Bool)
    (flags idv ty : Nat) (payload rest : List Nat)
    (replyTy : Nat) (replyData : List Nat)
    (hph : st.performedHandshake = true) (hsock : st.debugSocket ≠ -1)
    (hid : idv < 2 ^ 32) (hty : ty < 2 ^ 32)
    (hlen : kPacketHeaderLen + 4 + 4 + payload.length < 2 ^ 32)
    (hhandler : handler ty payload = some (replyTy, replyData)) :
    (handleDataWithoutAgent st (mkDdmCmdPacket idv flags ty payload ++ rest)
        handler attachOk).written =
      htonl (kPacketHeaderLen + 4 + 4 + replyData.length) ++ htonl idv ++
        [ddmFlagsByte DdmPacketType.kReply, 0, 0] ++ htonl replyTy ++
        htonl replyData.length ++ replyData ∧
    (handleDataWithoutAgent st (mkDdmCmdPacket idv flags ty payload ++ rest)
        handler attachOk).consumed =
      kPacketHeaderLen + 4 + 4 + payload.length ∧
    (handleDataWithoutAgent st (mkDdmCmdPacket idv flags ty payload ++ rest)
        handler attachOk).callbackInvoked = true ∧
    (handleDataWithoutAgent st (mkDdmCmdPacket idv flags ty payload ++ rest)
        handler attachOk).closedConn = false ∧
    (handleDataWithoutAgent st (mkDdmCmdPacket idv flags ty payload ++ rest)
        handler attachOk).attachedAgent = false := by
  obtain ⟨hfl, hpid, h9, h10, htyd, hlend, hdrop, hlength⟩ :=
    mkDdm_decode idv flags ty payload rest hid hty hlen
  set buf := mkDdmCmdPacket idv flags ty payload ++ rest with hbuf
  have hred : handleDataWithoutAgent st buf handler attachOk =
      packetPhase st buf handler attachOk := by
    unfold handleDataWithoutAgent
    rw [if_neg (by simp [hph])]
  rw [hred]
  simp only [packetPhase]
  have hmin : min kPacketHeaderLen buf.length = kPacketHeaderLen :=
    Nat.min_eq_left (by omega)
  rw [hmin, if_neg (by decide : ¬kPacketHeaderLen = 0),
    if_neg (by omega : ¬kPacketHeaderLen < kPacketHeaderLen),
    if_neg (show ¬(buf.getD 9 0 ≠ kDdmCommandSet ∨
      buf.getD 10 0 ≠ kDdmChunkCommand ∨
      hdrFullLen buf < kPacketHeaderLen) by
        push_neg
        refine ⟨h9, h10, by omega⟩),
    if_neg (by omega : ¬buf.length < hdrFullLen buf),
    if_neg (by omega : ¬hdrFullLen buf - kPacketHeaderLen < 8),
    if_neg (show ¬ntohl4 (buf.getD 15 0) (buf.getD 16 0) (buf.getD 17 0)
        (buf.getD 18 0) > hdrFullLen buf - kPacketHeaderLen - 8 by
      rw [hlend]
      omega),
    htyd, hlend, hdrop, List.take_left, hhandler]
  simp only []
  refine ⟨?_, by rw [hfl], by trivial, by trivial, by trivial⟩
  show sendDdmOut _ (hdrPktId buf) DdmPacketType.kReply replyTy replyData = _
  rw [hpid]
  unfold sendDdmOut
  rw [if_neg]
  · rfl
  · rintro (hbad | hbad)
    · revert hbad
      split
      · intro hbad; exact hsock hbad
      · intro hbad; exact hsock hbad
    · revert hbad
      split
      · intro hbad; exact hbad (by simpa [notifyDdms] using hph)
      · intro hbad; exact hbad hph



/-- C4 (witness): the round trip at a concrete packet: id 1, type 5,
payload `[1, 2]`, callback answering type 7 with payload `[9]`. -/
theorem ddm_reply_roundtrip_witness :
    (handleDataWithoutAgent
        { initState with performedHandshake := true, debugSocket := 3 }
        (mkDdmCmdPacket 1 0 5 [1, 2] ++ [])
        (fun _ _ => some (7, [9])) false).written =
      htonl (kPacketHeaderLen + 4 + 4 + 1) ++ htonl 1 ++
        [ddmFlagsByte DdmPacketType.kReply, 0, 0] ++ htonl 7 ++
        htonl 1 ++ [9] ∧
    (handleDataWithoutAgent
        { initState with performedHandshake := true, debugSocket := 3 }
        (mkDdmCmdPacket 1 0 5 [1, 2] ++ [])
        (fun _ _ => some (7, [9])) false).consumed =
      kPacketHeaderLen + 4 + 4 + 2 ∧
    (handleDataWithoutAgent
        { initState with performedHandshake := true, debugSocket := 3 }
        (mkDdmCmdPacket 1 0 5 [1, 2] ++ [])
        (fun _ _ => some (7, [9])) false).callbackInvoked = true ∧
    (handleDataWithoutAgent
        { initState with performedHandshake := true, debugSocket := 3 }
        (mkDdmCmdPacket 1 0 5 [1, 2] ++ [])
        (fun _ _ => some (7, [9])) false).closedConn = false ∧
    (handleDataWithoutAgent
        { initState with performedHandshake := true, debugSocket := 3 }
        (mkDdmCmdPacket 1 0 5 [1, 2] ++ [])
        (fun _ _ => some (7, [9])) false).attachedAgent = false :=
  ddm_reply_roundtrip
    { initState with performedHandshake := true, debugSocket := 3 }
    (fun _ _ => some (7, [9])) false 0 1 5 [1, 2] [] 7 [9]
    rfl (by decide) (by decide) (by decide) (by decide) rfl


end AdbConnection
